import Mathlib

/-!
Verification of the Flavor-Library recipe web application (`app.py`).

The route handlers are embedded as pure functions over an explicit
database state `DB`.  The external Spoonacular API is a function
parameter, flash messages and redirects are explicit fields of each
handler's result, and the flask-caching simple cache is an association
list with absolute expiry times.
-/

namespace FlavorLibrary

/-- Modelled from the spec: `models.py` is not under `src/`.  A `User`
row has `id`, unique `username`, unique `email` and a password hash
(spec section 3). -/
structure User where
  id : Nat
  username : String
  email : String
  passwordHash : String
deriving DecidableEq

/-- Modelled from the spec: `models.py` is not under `src/`.  A
persisted copy of an API-sourced recipe: id mirrors the external API
id; ingredients is a flattened string (spec section 3, and the fields
used by `save_recipe` in `app.py`). -/
structure Recipe where
  id : Nat
  title : String
  ingredients : String
  instructions : String
  user_id : Nat
deriving DecidableEq

/-- Modelled from the spec: `models.py` is not under `src/`.  A
user-authored recipe (spec section 3, and the fields used by
`create_recipe` in `app.py`). -/
structure UserRecipe where
  id : Nat
  title : String
  ingredients : String
  instructions : String
  image_url : String
  user_id : Nat
deriving DecidableEq

/-- Modelled from the spec: `models.py` is not under `src/`.  The
saved-recipe join entity `(user id, recipe id)` with its own primary
key (spec section 3; `app.py` queries it by `user_id`/`recipe_id` and
deletes it by its own id). -/
structure SavedRecipe where
  id : Nat
  user_id : Nat
  recipe_id : Nat
deriving DecidableEq

/-- The relational database state: the four tables. -/
structure DB where
  users : List User
  recipes : List Recipe
  userRecipes : List UserRecipe
  savedRecipes : List SavedRecipe
deriving DecidableEq

/-- The JSON body returned by the Spoonacular `information` endpoint,
restricted to the fields `save_recipe` and `view_recipe` read:
`id`, `title`, `extendedIngredients` (only each ingredient's `name`
is read) and `instructions`. -/
structure RecipeData where
  id : Nat
  title : String
  extendedIngredients : List String
  instructions : String
deriving DecidableEq

/-- An HTTP response: status code and parsed JSON body.  The body is
only inspected by the handlers when the status is 200. -/
structure HttpResp (α : Type) where
  status : Nat
  json : α
deriving DecidableEq

/-- A flash message: text and category, as passed to Flask `flash`. -/
abbrev Flash := String × String

/-! ## register (app.py lines 47-84) -/

inductive RegOutcome where
  | created
  | usernameTaken
  | emailTaken
deriving DecidableEq

structure RegResult where
  db : DB
  outcome : RegOutcome
  flashes : List Flash
  loggedInUser : Option Nat
  redirectTo : String
deriving DecidableEq

/-- The `register` handler on a validated form submission.  The
`IntegrityError` branch is modelled from the spec's uniqueness
constraints (`models.py` is not under `src/`): the commit fails when
the username or the email already exists, the transaction is rolled
back, and `app.py` lines 76-82 match the violated constraint name
(username checked first) and flash the corresponding message.  `hash`
is the password hashing function, `newId` the id the database would
assign. -/
def register (hash : String → String) (db : DB) (newId : Nat)
    (username email password : String) : RegResult :=
  if db.users.any (fun u => u.username == username) then
    { db := db, outcome := .usernameTaken,
      flashes := [("Username already taken. Please choose a different one.", "danger")],
      loggedInUser := none, redirectTo := "register" }
  else if db.users.any (fun u => u.email == email) then
    { db := db, outcome := .emailTaken,
      flashes := [("Email already taken. Please choose a different one.", "danger")],
      loggedInUser := none, redirectTo := "register" }
  else
    { db := { db with users :=
        db.users ++ [{ id := newId, username := username, email := email,
                       passwordHash := hash password }] },
      outcome := .created,
      flashes := [("Your account has been created!", "success")],
      loggedInUser := some newId, redirectTo := "index" }

/-! ## login (app.py lines 87-117) -/

structure LoginResult where
  loggedInUser : Option Nat
  flashes : List Flash
  page : String
deriving DecidableEq

/-- The `login` handler on a validated form submission.  `checkHash
storedHash password` models `user.check_password(password)` from the
spec ("password check against the stored hash"; `models.py` is not
under `src/`).  `User.query.filter_by(email=...).first()` is the first
user with that email. -/
def login (checkHash : String → String → Bool) (db : DB)
    (email password : String) : LoginResult :=
  match db.users.find? (fun u => u.email == email) with
  | some u =>
    if checkHash u.passwordHash password then
      { loggedInUser := some u.id, flashes := [], page := "redirect:index" }
    else
      { loggedInUser := none,
        flashes := [("Login unsuccessful. Please check email and password.", "danger")],
        page := "render:login.html" }
  | none =>
      { loggedInUser := none,
        flashes := [("Login unsuccessful. Please check email and password.", "danger")],
        page := "render:login.html" }

/-! ## search_recipes and the index search path (app.py lines 138-197) -/

/-- The query parameters `search_recipes` sends to the Spoonacular
`complexSearch` endpoint. -/
structure SearchParams where
  apiKey : String
  query : String
  number : Nat
  instructionsRequired : Bool
  addRecipeInformation : Bool
  fillIngredients : Bool
deriving DecidableEq

/-- The JSON body of a `complexSearch` response; only its `results`
list is read.  The element type is opaque to the handler. -/
structure SearchBody (α : Type) where
  results : List α
deriving DecidableEq

/-- The parameter dictionary built at app.py lines 184-191. -/
def searchParams (apiKey query : String) : SearchParams :=
  { apiKey := apiKey, query := query, number := 12,
    instructionsRequired := true, addRecipeInformation := true,
    fillIngredients := true }

/-- `search_recipes` (app.py lines 169-197): send the request, and on
a 200 response return the body's `results` list, otherwise `[]`.
`api` stands for `requests.get` against the `complexSearch` URL. -/
def search_recipes {α : Type} (apiKey : String)
    (api : SearchParams → HttpResp (SearchBody α)) (query : String) : List α :=
  let response := api (searchParams apiKey query)
  if response.status == 200 then response.json.results else []

/-- The rendered index page: recipes, the echoed search query, the
flash messages the handler issued, and the HTTP status. -/
structure IndexResult (α : Type) where
  recipes : List α
  search_query : String
  flashes : List Flash
  status : Nat
deriving DecidableEq

/-- The `index` route on a POST search (app.py lines 159-162): it
calls `search_recipes` and renders `index.html`; it issues no flash
and returns a normal 200 page. -/
def index_post {α : Type} (apiKey : String)
    (api : SearchParams → HttpResp (SearchBody α)) (query : String) :
    IndexResult α :=
  { recipes := search_recipes apiKey api query, search_query := query,
    flashes := [], status := 200 }

/-! ## The flask-caching simple cache used by view_recipe -/

/-- One cache entry: the stored value and its absolute expiry time. -/
structure CacheEntry where
  value : RecipeData
  expiresAt : Nat
deriving DecidableEq

/-- The process-local simple cache: a key-value store. -/
abbrev Cache := List (String × CacheEntry)

/-- `cache.get(k)` at time `now`: the stored value if present and not
yet expired. -/
def cacheGet (c : Cache) (now : Nat) (k : String) : Option RecipeData :=
  match c.find? (fun e => e.1 == k) with
  | some e => if now < e.2.expiresAt then some e.2.value else none
  | none => none

/-- `cache.set(k, v, timeout)` at time `now`: store `v` under `k`
expiring at `now + timeout`, overwriting any previous entry. -/
def cacheSet (c : Cache) (now : Nat) (k : String) (v : RecipeData)
    (timeout : Nat) : Cache :=
  (k, { value := v, expiresAt := now + timeout }) :: c.filter (fun e => e.1 != k)

/-! ## view_recipe (app.py lines 200-241) -/

/-- What `view_recipe` returns to the client: either the rendered
recipe page (with the `already_saved` lookup result) or the
`("Recipe not found", 404)` response. -/
inductive ViewRecipeOut where
  | page (recipe : RecipeData) (already_saved : Option SavedRecipe)
  | notFound
deriving DecidableEq

structure ViewRecipeResult where
  out : ViewRecipeOut
  cache : Cache
  apiCalled : Bool
deriving DecidableEq

/-- The `already_saved` computation at app.py lines 237-239. -/
def alreadySavedEntry (currentUser : Option User) (db : DB)
    (recipe_id : Nat) : Option SavedRecipe :=
  match currentUser with
  | some u => db.savedRecipes.find?
      (fun s => s.user_id == u.id && s.recipe_id == recipe_id)
  | none => none

/-- `view_recipe` (app.py lines 200-241): serve the cached response
under key `recipe_<id>` when unexpired; otherwise fetch from the
Spoonacular `information` endpoint, cache a 200 response with timeout
3600, and return 404 on any other status.  `apiCalled` records whether
the external call was made. -/
def view_recipe (api : Nat → HttpResp RecipeData) (cache : Cache)
    (now : Nat) (currentUser : Option User) (db : DB) (recipe_id : Nat) :
    ViewRecipeResult :=
  match cacheGet cache now (s!"recipe_{recipe_id}") with
  | some r =>
      { out := .page r (alreadySavedEntry currentUser db recipe_id),
        cache := cache, apiCalled := false }
  | none =>
    let response := api recipe_id
    if response.status == 200 then
      let recipe := response.json
      { out := .page recipe (alreadySavedEntry currentUser db recipe_id),
        cache := cacheSet cache now (s!"recipe_{recipe_id}") recipe 3600,
        apiCalled := true }
    else
      { out := .notFound, cache := cache, apiCalled := true }

/-! ## save_recipe (app.py lines 244-297) -/

inductive SaveOutcome where
  | apiNotFound
  | alreadySaved
  | saved
deriving DecidableEq

structure SaveResult where
  db : DB
  outcome : SaveOutcome
  flashes : List Flash
  redirectTo : String
  apiCalled : Bool
deriving DecidableEq

/-- The ingredient flattening at app.py line 277:
`', '.join(name for ingredient in extendedIngredients)`. -/
def joinIngredients (names : List String) : String :=
  String.intercalate ", " names

/-- The second half of `save_recipe` (app.py lines 287-297): if a
`SavedRecipe` for `(current user, rid)` exists, only flash "already
saved"; otherwise insert the new `SavedRecipe` row (`newSavedId` is
the id the database would assign) and flash "Recipe saved!". -/
def save_recipe_after (u : User) (db : DB) (rid : Nat)
    (newSavedId : Nat) (apiCalled : Bool) : SaveResult :=
  if (db.savedRecipes.find?
      (fun s => s.user_id == u.id && s.recipe_id == rid)).isSome then
    { db := db, outcome := .alreadySaved,
      flashes := [("You have already saved this recipe!", "info")],
      redirectTo := "index", apiCalled := apiCalled }
  else
    { db := { db with savedRecipes :=
        db.savedRecipes ++ [{ id := newSavedId, user_id := u.id, recipe_id := rid }] },
      outcome := .saved,
      flashes := [("Recipe saved!", "success")],
      redirectTo := "index", apiCalled := apiCalled }

/-- `save_recipe` (app.py lines 244-297), for logged-in user `u`.
Look for a local `Recipe` row with the given id; if absent fetch from
the Spoonacular `information` endpoint and either persist a local copy
(on 200) or flash "Recipe not found in Spoonacular!" and redirect to
the index; then dedupe-check and insert the `SavedRecipe` row. -/
def save_recipe (api : Nat → HttpResp RecipeData) (u : User) (db : DB)
    (newSavedId : Nat) (recipe_id : Nat) : SaveResult :=
  match db.recipes.find? (fun r => r.id == recipe_id) with
  | some recipe => save_recipe_after u db recipe.id newSavedId false
  | none =>
    let response := api recipe_id
    if response.status == 200 then
      let d := response.json
      let recipe : Recipe :=
        { id := d.id, title := d.title,
          ingredients := joinIngredients d.extendedIngredients,
          instructions := d.instructions, user_id := u.id }
      save_recipe_after u { db with recipes := db.recipes ++ [recipe] }
        recipe.id newSavedId true
    else
      { db := db, outcome := .apiNotFound,
        flashes := [("Recipe not found in Spoonacular!", "danger")],
        redirectTo := "index", apiCalled := true }

/-! ## delete_saved_recipe and delete_my_recipe (app.py lines 318-345, 404-433) -/

inductive DeleteOutcome where
  | notFound
  | unauthorized
  | deleted
deriving DecidableEq

structure DeleteResult where
  db : DB
  outcome : DeleteOutcome
  flashes : List Flash
  redirectTo : Option String
deriving DecidableEq

/-- `delete_saved_recipe` (app.py lines 318-345), for logged-in user
`u`.  `get_or_404` aborts with 404 when no row has the id; when the
row's `user_id` differs from the current user's, flash the
unauthorized message and redirect without deleting. -/
def delete_saved_recipe (u : User) (db : DB) (saved_recipe_id : Nat) :
    DeleteResult :=
  match db.savedRecipes.find? (fun s => s.id == saved_recipe_id) with
  | none => { db := db, outcome := .notFound, flashes := [], redirectTo := none }
  | some s =>
    if s.user_id != u.id then
      { db := db, outcome := .unauthorized,
        flashes := [("You are not authorized to delete this saved recipe.", "danger")],
        redirectTo := some "saved_recipes" }
    else
      { db := { db with savedRecipes :=
          db.savedRecipes.filter (fun t => t.id != saved_recipe_id) },
        outcome := .deleted,
        flashes := [("Recipe removed from your saved list!", "success")],
        redirectTo := some "saved_recipes" }

/-- `delete_my_recipe` (app.py lines 404-433), for logged-in user `u`:
the same pattern over the `UserRecipe` table. -/
def delete_my_recipe (u : User) (db : DB) (recipe_id : Nat) : DeleteResult :=
  match db.userRecipes.find? (fun r => r.id == recipe_id) with
  | none => { db := db, outcome := .notFound, flashes := [], redirectTo := none }
  | some r =>
    if r.user_id != u.id then
      { db := db, outcome := .unauthorized,
        flashes := [("You are not authorized to delete this recipe.", "danger")],
        redirectTo := some "my_recipes" }
    else
      { db := { db with userRecipes :=
          db.userRecipes.filter (fun t => t.id != recipe_id) },
        outcome := .deleted,
        flashes := [("Your recipe has been deleted!", "success")],
        redirectTo := some "my_recipes" }

/-! ## create_recipe, my_recipes, view_my_recipe (app.py lines 348-401) -/

structure CreateResult where
  db : DB
  flashes : List Flash
  redirectTo : String
deriving DecidableEq

/-- The `UserRecipe` row `create_recipe` builds from the form data
(app.py lines 366-372); `newId` is the id the database would assign. -/
def mkUserRecipe (u : User) (newId : Nat)
    (title ingredients instructions image_url : String) : UserRecipe :=
  { id := newId, title := title, ingredients := ingredients,
    instructions := instructions, image_url := image_url, user_id := u.id }

/-- `create_recipe` (app.py lines 348-377) on a validated form
submission by logged-in user `u`: persist the new row, flash success
and redirect to the index. -/
def create_recipe (u : User) (db : DB) (newId : Nat)
    (title ingredients instructions image_url : String) : CreateResult :=
  { db := { db with userRecipes :=
      db.userRecipes ++ [mkUserRecipe u newId title ingredients instructions image_url] },
    flashes := [("Your recipe has been created!", "success")],
    redirectTo := "index" }

/-- `my_recipes` (app.py lines 380-384), for logged-in user `u`: the
`UserRecipe` rows whose `user_id` is the current user's id. -/
def my_recipes (u : User) (db : DB) : List UserRecipe :=
  db.userRecipes.filter (fun r => r.user_id == u.id)

/-- A page response for `view_my_recipe`: a rendered template or a
404. -/
inductive Page where
  | render (template : String) (recipe : Option UserRecipe)
  | notFound
deriving DecidableEq

/-- `view_my_recipe` (app.py lines 387-401).  The route has no
`login_required` decorator and takes no current user: it renders
`view_my_recipe.html` with the first `UserRecipe` of that id, or with
`none` when no row matches (`.first()` returns `None`; no 404, no
ownership check). -/
def view_my_recipe (db : DB) (recipe_id : Nat) : Page :=
  Page.render "view_my_recipe.html"
    (db.userRecipes.find? (fun r => r.id == recipe_id))

/-! ## The saved-recipes uniqueness invariant -/

/-- No user has two saved entries for the same recipe: the
`SavedRecipe` table is pairwise free of repeated
`(user id, recipe id)` pairs. -/
def noDupSaved (db : DB) : Prop :=
  db.savedRecipes.Pairwise
    (fun s t => ¬(s.user_id = t.user_id ∧ s.recipe_id = t.recipe_id))

/-! ## Theorems -/

/-- C10: `search_recipes` fixes the result-count parameter at
`number = 12` with `instructionsRequired`, `addRecipeInformation` and
`fillIngredients` set, and on a 200 response it returns exactly the
`results` list of the response body. -/
theorem search_recipes_spec {α : Type} (apiKey query : String)
    (api : SearchParams → HttpResp (SearchBody α)) :
    (searchParams apiKey query).number = 12
    ∧ (searchParams apiKey query).instructionsRequired = true
    ∧ (searchParams apiKey query).addRecipeInformation = true
    ∧ (searchParams apiKey query).fillIngredients = true
    ∧ ((api (searchParams apiKey query)).status = 200 →
        search_recipes apiKey api query =
          (api (searchParams apiKey query)).json.results) := by
  refine ⟨rfl, rfl, rfl, rfl, fun h => ?_⟩
  simp [search_recipes, h]

/-- A search API stub answering 200 with one result, for the witness of
`search_recipes_spec`. -/
def sapiOk : SearchParams → HttpResp (SearchBody Nat) :=
  fun _ => { status := 200, json := { results := [7] } }

/-- Witness for `search_recipes_spec` at a concrete API and query. -/
theorem search_recipes_spec_witness :
    search_recipes "key" sapiOk "pasta" =
      (sapiOk (searchParams "key" "pasta")).json.results :=
  (search_recipes_spec "key" "pasta" sapiOk).2.2.2.2 rfl

/-- A search API stub answering 500, exhibiting the silent search
failure. -/
def sapiFail : SearchParams → HttpResp (SearchBody Nat) :=
  fun _ => { status := 500, json := { results := [] } }

/-- C2 counterexample: on a non-200 search response the index page is
rendered normally — no flash message, status 200 (not a not-found
response) — so the search path does not surface the failure in either
of the two claimed forms. -/
theorem search_failure_silent :
    (sapiFail (searchParams "key" "pasta")).status ≠ 200
    ∧ index_post "key" sapiFail "pasta" =
        { recipes := ([] : List Nat), search_query := "pasta",
          flashes := [], status := 200 } :=
  ⟨by decide, rfl⟩

/-- C2 (amended): on a non-200 external response, `view_recipe`
returns the "Recipe not found" 404 and `save_recipe` flashes "Recipe
not found in Spoonacular!" and redirects with the database unchanged;
the search path, however, surfaces nothing: it renders the page with
an empty result list, no flash and status 200. -/
theorem api_failure_handling {α : Type} (api : Nat → HttpResp RecipeData)
    (cache : Cache) (now : Nat) (cu : Option User) (db : DB) (u : User)
    (nsid rid : Nat) (apiKey q : String)
    (sapi : SearchParams → HttpResp (SearchBody α)) :
    (cacheGet cache now (s!"recipe_{rid}") = none → (api rid).status ≠ 200 →
      view_recipe api cache now cu db rid =
        { out := .notFound, cache := cache, apiCalled := true })
    ∧ (db.recipes.find? (fun r => r.id == rid) = none → (api rid).status ≠ 200 →
      save_recipe api u db nsid rid =
        { db := db, outcome := .apiNotFound,
          flashes := [("Recipe not found in Spoonacular!", "danger")],
          redirectTo := "index", apiCalled := true })
    ∧ ((sapi (searchParams apiKey q)).status ≠ 200 →
      index_post apiKey sapi q =
        { recipes := [], search_query := q, flashes := [], status := 200 }) := by
  refine ⟨fun hm hs => ?_, fun hf hs => ?_, fun hs => ?_⟩
  · simp [view_recipe, hm, hs]
  · simp [save_recipe, hf, hs]
  · simp [index_post, search_recipes, hs]

/-- An information API stub answering 500, for witnesses. -/
def iapiFail : Nat → HttpResp RecipeData :=
  fun _ => { status := 500,
             json := { id := 0, title := "", extendedIngredients := [],
                       instructions := "" } }

/-- A sample logged-in user, for witnesses. -/
def userW : User :=
  { id := 1, username := "alice", email := "alice@example.com",
    passwordHash := "h1" }

/-- An empty database, for witnesses. -/
def emptyDB : DB :=
  { users := [], recipes := [], userRecipes := [], savedRecipes := [] }

/-- Witness for `api_failure_handling` at a concrete failing API. -/
theorem api_failure_handling_witness :
    view_recipe iapiFail [] 0 none emptyDB 5 =
      { out := .notFound, cache := [], apiCalled := true }
    ∧ save_recipe iapiFail userW emptyDB 1 5 =
      { db := emptyDB, outcome := .apiNotFound,
        flashes := [("Recipe not found in Spoonacular!", "danger")],
        redirectTo := "index", apiCalled := true }
    ∧ index_post "key" sapiFail "pasta" =
      { recipes := ([] : List Nat), search_query := "pasta",
        flashes := [], status := 200 } :=
  ⟨(api_failure_handling iapiFail [] 0 none emptyDB userW 1 5 "key" "pasta"
      sapiFail).1 rfl (by decide),
   (api_failure_handling iapiFail [] 0 none emptyDB userW 1 5 "key" "pasta"
      sapiFail).2.1 rfl (by decide),
   (api_failure_handling iapiFail [] 0 none emptyDB userW 1 5 "key" "pasta"
      sapiFail).2.2 (by decide)⟩

/-- C9: `view_my_recipe` has no authentication and no ownership check
— its result depends only on the recipe id and the `UserRecipe` table
— it never returns a 404, and when no `UserRecipe` with the id exists
it renders the template with a `none` recipe. -/
theorem view_my_recipe_spec (db : DB) (recipe_id : Nat) :
    view_my_recipe db recipe_id =
      Page.render "view_my_recipe.html"
        (db.userRecipes.find? (fun r => r.id == recipe_id))
    ∧ view_my_recipe db recipe_id ≠ Page.notFound
    ∧ ((∀ r ∈ db.userRecipes, r.id ≠ recipe_id) →
        view_my_recipe db recipe_id = Page.render "view_my_recipe.html" none) := by
  refine ⟨rfl, by simp [view_my_recipe], fun h => ?_⟩
  have hnone : db.userRecipes.find? (fun r => r.id == recipe_id) = none := by
    rw [List.find?_eq_none]
    intro x hx
    simpa using h x hx
  simp [view_my_recipe, hnone]

/-- A database holding one user-authored recipe of user 2, for
witnesses. -/
def dbOneUserRecipe : DB :=
  { users := [], recipes := [], savedRecipes := [],
    userRecipes := [{ id := 1, title := "Cake", ingredients := "flour",
                      instructions := "bake", image_url := "u",
                      user_id := 2 }] }

/-- Witness for `view_my_recipe_spec`: an id with no matching row
renders the template with `none`. -/
theorem view_my_recipe_spec_witness :
    view_my_recipe dbOneUserRecipe 9 = Page.render "view_my_recipe.html" none :=
  (view_my_recipe_spec dbOneUserRecipe 9).2.2 (by decide)

/-- C7: `create_recipe` persists exactly one new `UserRecipe` row
built from the submitted form and owned by the current user; that row
is in the owner's `my_recipes` list afterwards; and `my_recipes`
returns exactly the `UserRecipe` rows whose `user_id` equals the
current user's id. -/
theorem create_recipe_spec (u : User) (db : DB) (newId : Nat)
    (title ingredients instructions image_url : String) :
    (create_recipe u db newId title ingredients instructions image_url).db.userRecipes
      = db.userRecipes ++ [mkUserRecipe u newId title ingredients instructions image_url]
    ∧ mkUserRecipe u newId title ingredients instructions image_url
        ∈ my_recipes u (create_recipe u db newId title ingredients instructions image_url).db
    ∧ (∀ x, x ∈ my_recipes u db ↔ x ∈ db.userRecipes ∧ x.user_id = u.id)
    ∧ (create_recipe u db newId title ingredients instructions image_url).flashes
      = [("Your recipe has been created!", "success")] := by
  refine ⟨rfl, ?_, fun x => ?_, rfl⟩
  · simp [my_recipes, create_recipe, mkUserRecipe]
  · simp [my_recipes, List.mem_filter]

/-- C4: when the submitted username or email already exists among the
users, `register` persists no new `User` row (the transaction is
rolled back, the table is unchanged), flashes "Username already taken"
or "Email already taken", logs nobody in, and redirects back to the
registration page. -/
theorem register_duplicate_spec (hash : String → String) (db : DB)
    (newId : Nat) (username email password : String)
    (hdup : ∃ u ∈ db.users, u.username = username ∨ u.email = email) :
    (register hash db newId username email password).db = db
    ∧ (register hash db newId username email password).redirectTo = "register"
    ∧ (register hash db newId username email password).loggedInUser = none
    ∧ ((register hash db newId username email password).flashes
        = [("Username already taken. Please choose a different one.", "danger")]
      ∨ (register hash db newId username email password).flashes
        = [("Email already taken. Please choose a different one.", "danger")]) := by
  by_cases hn : db.users.any (fun u => u.username == username)
  · refine ⟨?_, ?_, ?_, Or.inl ?_⟩ <;> simp [register, hn]
  · have he : db.users.any (fun u => u.email == email) := by
      obtain ⟨u, hu, hc⟩ := hdup
      rcases hc with hc | hc
      · exact absurd (List.any_eq_true.mpr ⟨u, hu, by simp [hc]⟩) hn
      · exact List.any_eq_true.mpr ⟨u, hu, by simp [hc]⟩
    refine ⟨?_, ?_, ?_, Or.inr ?_⟩ <;> simp [register, hn, he]

/-- A database holding one registered user, for witnesses. -/
def dbOneUser : DB :=
  { users := [userW], recipes := [], userRecipes := [], savedRecipes := [] }

/-- Witness for `register_duplicate_spec`: re-registering the existing
username leaves the database unchanged and redirects to register. -/
theorem register_duplicate_spec_witness :
    (register (fun p => p) dbOneUser 2 "alice" "new@example.com" "pw").db
      = dbOneUser
    ∧ (register (fun p => p) dbOneUser 2 "alice" "new@example.com" "pw").redirectTo
      = "register" :=
  ⟨(register_duplicate_spec (fun p => p) dbOneUser 2 "alice" "new@example.com"
      "pw" ⟨userW, by simp [dbOneUser], Or.inl rfl⟩).1,
   (register_duplicate_spec (fun p => p) dbOneUser 2 "alice" "new@example.com"
      "pw" ⟨userW, by simp [dbOneUser], Or.inl rfl⟩).2.1⟩

/-- C5: assuming emails are unique (the registration constraint),
`login` logs a user in — and then redirects to the homepage with no
flash — if and only if a user with the submitted email exists and the
password check against that user's stored hash succeeds; otherwise
nobody is logged in and the "Login unsuccessful" message is flashed
over the re-rendered login page. -/
theorem login_spec (checkHash : String → String → Bool) (db : DB)
    (email password : String)
    (hUnique : ∀ u ∈ db.users, ∀ v ∈ db.users, u.email = v.email → u = v) :
    ((login checkHash db email password).loggedInUser.isSome ↔
      ∃ u ∈ db.users, u.email = email ∧ checkHash u.passwordHash password = true)
    ∧ ((login checkHash db email password).loggedInUser.isSome →
        (login checkHash db email password).page = "redirect:index"
        ∧ (login checkHash db email password).flashes = [])
    ∧ ((login checkHash db email password).loggedInUser = none →
        (login checkHash db email password).flashes
          = [("Login unsuccessful. Please check email and password.", "danger")]
        ∧ (login checkHash db email password).page = "render:login.html") := by
  rcases hf : db.users.find? (fun u => u.email == email) with _ | u
  · have hno : ∀ u ∈ db.users, u.email ≠ email := by
      intro u hu
      have := List.find?_eq_none.mp hf u hu
      simpa using this
    have heq : login checkHash db email password =
        { loggedInUser := none,
          flashes := [("Login unsuccessful. Please check email and password.", "danger")],
          page := "render:login.html" } := by
      simp only [login, hf]
    rw [heq]
    refine ⟨?_, ?_, fun _ => ⟨rfl, rfl⟩⟩
    · simp only [Option.isSome_none, Bool.false_eq_true, false_iff]
      rintro ⟨u, hu, he, _⟩
      exact hno u hu he
    · intro h
      simp at h
  · have hmem : u ∈ db.users := List.mem_of_find?_eq_some hf
    have hemail : u.email = email := by
      have := List.find?_some hf
      simpa using this
    by_cases hc : checkHash u.passwordHash password
    · have heq : login checkHash db email password =
          { loggedInUser := some u.id, flashes := [], page := "redirect:index" } := by
        simp only [login, hf, if_pos hc]
      rw [heq]
      refine ⟨?_, fun _ => ⟨rfl, rfl⟩, fun h => by simp at h⟩
      simp only [Option.isSome_some, true_iff]
      exact ⟨u, hmem, hemail, hc⟩
    · have heq : login checkHash db email password =
          { loggedInUser := none,
            flashes := [("Login unsuccessful. Please check email and password.", "danger")],
            page := "render:login.html" } := by
        simp only [login, hf, if_neg hc]
      rw [heq]
      refine ⟨?_, fun h => by simp at h, fun _ => ⟨rfl, rfl⟩⟩
      simp only [Option.isSome_none, Bool.false_eq_true, false_iff]
      rintro ⟨v, hv, hve, hvc⟩
      have : v = u := hUnique v hv u hmem (hve.trans hemail.symm)
      exact hc (this ▸ hvc)

/-- Witness for `login_spec`: with a one-user database and a hash
check that succeeds on the stored hash, login succeeds. -/
theorem login_spec_witness :
    ((login (fun h p => h == p) dbOneUser "alice@example.com" "h1").loggedInUser).isSome :=
  (login_spec (fun h p => h == p) dbOneUser "alice@example.com" "h1"
    (by decide)).1.mpr ⟨userW, by decide, by decide, by decide⟩

/-- C3: when the `SavedRecipe` (resp. `UserRecipe`) row looked up by
id belongs to a different user than the current one, the delete
handler flashes the unauthorized message and redirects, and the
database is unchanged: the row is not deleted. -/
theorem delete_unauthorized_spec (u : User) (db : DB) (sid rid : Nat)
    (s : SavedRecipe) (r : UserRecipe)
    (hs : db.savedRecipes.find? (fun t => t.id == sid) = some s)
    (hsu : s.user_id ≠ u.id)
    (hr : db.userRecipes.find? (fun t => t.id == rid) = some r)
    (hru : r.user_id ≠ u.id) :
    delete_saved_recipe u db sid =
      { db := db, outcome := .unauthorized,
        flashes := [("You are not authorized to delete this saved recipe.", "danger")],
        redirectTo := some "saved_recipes" }
    ∧ delete_my_recipe u db rid =
      { db := db, outcome := .unauthorized,
        flashes := [("You are not authorized to delete this recipe.", "danger")],
        redirectTo := some "my_recipes" } := by
  constructor
  · simp only [delete_saved_recipe, hs]
    rw [if_pos (by simpa using hsu)]
  · simp only [delete_my_recipe, hr]
    rw [if_pos (by simpa using hru)]

/-- A database where user 2 owns one saved recipe and one authored
recipe, for witnesses. -/
def dbOtherOwner : DB :=
  { users := [userW],
    recipes := [{ id := 5, title := "Soup", ingredients := "water",
                  instructions := "boil", user_id := 2 }],
    userRecipes := [{ id := 3, title := "Cake", ingredients := "flour",
                      instructions := "bake", image_url := "u", user_id := 2 }],
    savedRecipes := [{ id := 4, user_id := 2, recipe_id := 5 }] }

/-- Witness for `delete_unauthorized_spec`: user 1 attempting to
delete user 2's rows changes nothing. -/
theorem delete_unauthorized_spec_witness :
    delete_saved_recipe userW dbOtherOwner 4 =
      { db := dbOtherOwner, outcome := .unauthorized,
        flashes := [("You are not authorized to delete this saved recipe.", "danger")],
        redirectTo := some "saved_recipes" }
    ∧ delete_my_recipe userW dbOtherOwner 3 =
      { db := dbOtherOwner, outcome := .unauthorized,
        flashes := [("You are not authorized to delete this recipe.", "danger")],
        redirectTo := some "my_recipes" } :=
  delete_unauthorized_spec userW dbOtherOwner 4 3
    { id := 4, user_id := 2, recipe_id := 5 }
    { id := 3, title := "Cake", ingredients := "flour",
      instructions := "bake", image_url := "u", user_id := 2 }
    (by decide) (by decide) (by decide) (by decide)

/-- `save_recipe_after` never touches the `recipes` table. -/
theorem save_recipe_after_recipes (u : User) (db : DB) (rid nsid : Nat)
    (b : Bool) : (save_recipe_after u db rid nsid b).db.recipes = db.recipes := by
  unfold save_recipe_after
  by_cases hf : (db.savedRecipes.find?
      (fun s => s.user_id == u.id && s.recipe_id == rid)).isSome
  · rw [if_pos hf]
  · rw [if_neg hf]

/-- `save_recipe_after` preserves `apiCalled` unchanged. -/
theorem save_recipe_after_apiCalled (u : User) (db : DB) (rid nsid : Nat)
    (b : Bool) : (save_recipe_after u db rid nsid b).apiCalled = b := by
  unfold save_recipe_after
  by_cases hf : (db.savedRecipes.find?
      (fun s => s.user_id == u.id && s.recipe_id == rid)).isSome
  · rw [if_pos hf]
  · rw [if_neg hf]

/-- C6: the local `Recipe` copy is created lazily.  When a local row
with the requested id exists, `save_recipe` does not call the external
API and the `recipes` table is unchanged; when none exists and the API
answers 200, it calls the API once and appends exactly the row built
from the response body (id mirroring the external id, title, flattened
ingredients, instructions, owned by the current user). -/
theorem save_recipe_lazy_spec (api : Nat → HttpResp RecipeData) (u : User)
    (db : DB) (nsid rid : Nat) :
    ((∃ r ∈ db.recipes, r.id = rid) →
      (save_recipe api u db nsid rid).apiCalled = false
      ∧ (save_recipe api u db nsid rid).db.recipes = db.recipes)
    ∧ (db.recipes.find? (fun r => r.id == rid) = none →
       (api rid).status = 200 →
       (save_recipe api u db nsid rid).apiCalled = true
       ∧ (save_recipe api u db nsid rid).db.recipes =
         db.recipes ++
           [{ id := (api rid).json.id, title := (api rid).json.title,
              ingredients := joinIngredients (api rid).json.extendedIngredients,
              instructions := (api rid).json.instructions, user_id := u.id }]) := by
  constructor
  · rintro ⟨r, hr, hid⟩
    have hsome : (db.recipes.find? (fun t => t.id == rid)).isSome :=
      List.find?_isSome.mpr ⟨r, hr, by simp [hid]⟩
    rcases hfound : db.recipes.find? (fun t => t.id == rid) with _ | r'
    · rw [hfound] at hsome
      simp at hsome
    · simp only [save_recipe, hfound]
      exact ⟨save_recipe_after_apiCalled .., save_recipe_after_recipes ..⟩
  · intro hnone h200
    simp only [save_recipe, hnone, h200, beq_self_eq_true, if_true]
    exact ⟨save_recipe_after_apiCalled .., save_recipe_after_recipes ..⟩

/-- An information API stub answering 200 with a fixed body, for
witnesses. -/
def iapiOk : Nat → HttpResp RecipeData :=
  fun n => { status := 200,
             json := { id := n, title := "Pasta",
                       extendedIngredients := ["flour", "egg"],
                       instructions := "mix" } }

/-- Witness for `save_recipe_lazy_spec`: both sides at concrete
inputs — a hit on the local copy makes no API call; a miss on an empty
table appends the fetched copy. -/
theorem save_recipe_lazy_spec_witness :
    ((save_recipe iapiOk userW dbOtherOwner 9 5).apiCalled = false
      ∧ (save_recipe iapiOk userW dbOtherOwner 9 5).db.recipes = dbOtherOwner.recipes)
    ∧ ((save_recipe iapiOk userW emptyDB 9 5).apiCalled = true
      ∧ (save_recipe iapiOk userW emptyDB 9 5).db.recipes =
          emptyDB.recipes ++
            [{ id := (iapiOk 5).json.id, title := (iapiOk 5).json.title,
               ingredients := joinIngredients (iapiOk 5).json.extendedIngredients,
               instructions := (iapiOk 5).json.instructions, user_id := userW.id }]) :=
  ⟨(save_recipe_lazy_spec iapiOk userW dbOtherOwner 9 5).1
      ⟨{ id := 5, title := "Soup", ingredients := "water",
         instructions := "boil", user_id := 2 }, by decide, rfl⟩,
   (save_recipe_lazy_spec iapiOk userW emptyDB 9 5).2 rfl rfl⟩

/-- When a `SavedRecipe` for the pair is already present,
`save_recipe_after` leaves the database unchanged and reports
"already saved". -/
theorem save_recipe_after_already (u : User) (db : DB) (rid nsid : Nat)
    (b : Bool)
    (h : (db.savedRecipes.find?
        (fun s => s.user_id == u.id && s.recipe_id == rid)).isSome) :
    save_recipe_after u db rid nsid b =
      { db := db, outcome := .alreadySaved,
        flashes := [("You have already saved this recipe!", "info")],
        redirectTo := "index", apiCalled := b } := by
  unfold save_recipe_after
  rw [if_pos h]

/-- `save_recipe_after` preserves the saved-recipes uniqueness
invariant: it inserts the new pair only after checking it is absent. -/
theorem save_recipe_after_noDup (u : User) (db : DB) (rid nsid : Nat)
    (b : Bool) (h : noDupSaved db) :
    noDupSaved (save_recipe_after u db rid nsid b).db := by
  unfold save_recipe_after
  by_cases hf : (db.savedRecipes.find?
      (fun s => s.user_id == u.id && s.recipe_id == rid)).isSome
  · rw [if_pos hf]
    exact h
  · rw [if_neg hf]
    have hnone : db.savedRecipes.find?
        (fun s => s.user_id == u.id && s.recipe_id == rid) = none :=
      Option.not_isSome_iff_eq_none.mp hf
    have hall := List.find?_eq_none.mp hnone
    unfold noDupSaved at h ⊢
    rw [List.pairwise_append]
    refine ⟨h, by simp, ?_⟩
    intro a ha c hc
    rcases List.mem_singleton.mp hc with rfl
    rintro ⟨h1, h2⟩
    exact hall a ha (by simp [h1, h2])

/-- C1: `save_recipe` preserves the invariant that no user has two
saved entries for the same recipe, `delete_saved_recipe` preserves it
too, and when a `SavedRecipe` for (current user, recipe id) already
exists (with the recipe present locally), `save_recipe` leaves the
`SavedRecipe` table unchanged and only reports "already saved". -/
theorem save_recipe_no_duplicate (api : Nat → HttpResp RecipeData)
    (u : User) (db : DB) (nsid sid rid : Nat) :
    (noDupSaved db → noDupSaved (save_recipe api u db nsid rid).db)
    ∧ (noDupSaved db → noDupSaved (delete_saved_recipe u db sid).db)
    ∧ ((∃ r ∈ db.recipes, r.id = rid) →
       (∃ s ∈ db.savedRecipes, s.user_id = u.id ∧ s.recipe_id = rid) →
       (save_recipe api u db nsid rid).db.savedRecipes = db.savedRecipes
       ∧ (save_recipe api u db nsid rid).outcome = .alreadySaved
       ∧ (save_recipe api u db nsid rid).flashes
         = [("You have already saved this recipe!", "info")]) := by
  refine ⟨fun h => ?_, fun h => ?_, fun hrec hsaved => ?_⟩
  · rcases hfound : db.recipes.find? (fun t => t.id == rid) with _ | r'
    · simp only [save_recipe, hfound]
      split
      · exact save_recipe_after_noDup _ _ _ _ _ h
      · exact h
    · simp only [save_recipe, hfound]
      exact save_recipe_after_noDup _ _ _ _ _ h
  · rcases hfound : db.savedRecipes.find? (fun t => t.id == sid) with _ | s
    · simp only [delete_saved_recipe, hfound]
      exact h
    · simp only [delete_saved_recipe, hfound]
      split
      · exact h
      · unfold noDupSaved at h ⊢
        exact h.sublist (List.filter_sublist _)
  · obtain ⟨r, hr, hrid⟩ := hrec
    have hsome : (db.recipes.find? (fun t => t.id == rid)).isSome :=
      List.find?_isSome.mpr ⟨r, hr, by simp [hrid]⟩
    rcases hfound : db.recipes.find? (fun t => t.id == rid) with _ | r'
    · rw [hfound] at hsome
      simp at hsome
    · have hrid' : r'.id = rid := by
        have := List.find?_some hfound
        simpa using this
      have hsaved' : (db.savedRecipes.find?
          (fun s => s.user_id == u.id && s.recipe_id == r'.id)).isSome := by
        obtain ⟨s, hsmem, hsu, hsr⟩ := hsaved
        exact List.find?_isSome.mpr ⟨s, hsmem, by simp [hsu, hsr, hrid']⟩
      simp only [save_recipe, hfound]
      rw [save_recipe_after_already u db r'.id nsid false hsaved']
      exact ⟨rfl, rfl, rfl⟩

/-- A database where user 1 has already saved recipe 5, whose local
copy exists, for witnesses. -/
def dbSaved : DB :=
  { users := [userW],
    recipes := [{ id := 5, title := "Soup", ingredients := "water",
                  instructions := "boil", user_id := 1 }],
    userRecipes := [],
    savedRecipes := [{ id := 4, user_id := 1, recipe_id := 5 }] }

/-- Witness for `save_recipe_no_duplicate`: saving an already-saved
recipe keeps the invariant, leaves the `SavedRecipe` table unchanged
and reports "already saved". -/
theorem save_recipe_no_duplicate_witness :
    noDupSaved (save_recipe iapiOk userW dbSaved 9 5).db
    ∧ (save_recipe iapiOk userW dbSaved 9 5).db.savedRecipes
      = dbSaved.savedRecipes
    ∧ (save_recipe iapiOk userW dbSaved 9 5).outcome = .alreadySaved :=
  ⟨(save_recipe_no_duplicate iapiOk userW dbSaved 9 4 5).1
      (by simp [noDupSaved, dbSaved]),
   ((save_recipe_no_duplicate iapiOk userW dbSaved 9 4 5).2.2
      ⟨{ id := 5, title := "Soup", ingredients := "water",
         instructions := "boil", user_id := 1 }, by decide, rfl⟩
      ⟨{ id := 4, user_id := 1, recipe_id := 5 }, by decide, rfl, rfl⟩).1,
   ((save_recipe_no_duplicate iapiOk userW dbSaved 9 4 5).2.2
      ⟨{ id := 5, title := "Soup", ingredients := "water",
         instructions := "boil", user_id := 1 }, by decide, rfl⟩
      ⟨{ id := 4, user_id := 1, recipe_id := 5 }, by decide, rfl, rfl⟩).2.1⟩

/-- A freshly stored cache entry is returned by `cacheGet` while its
timeout has not elapsed. -/
theorem cacheGet_cacheSet (c : Cache) (now now2 : Nat) (k : String)
    (v : RecipeData) (t : Nat) (h : now2 < now + t) :
    cacheGet (cacheSet c now k v t) now2 k = some v := by
  simp [cacheGet, cacheSet, h]

/-- C8: on a cache miss with a 200 response, `view_recipe` calls the
external API and stores the body under key `recipe_<id>` with timeout
3600; any later request for the same id while the entry is unexpired
(strictly within 3600 time units) is served from the cache with no
external call, whatever the API would now answer. -/
theorem view_recipe_cache_spec (api api2 : Nat → HttpResp RecipeData)
    (cache : Cache) (now now2 : Nat) (cu cu2 : Option User)
    (db db2 : DB) (rid : Nat)
    (hmiss : cacheGet cache now (s!"recipe_{rid}") = none)
    (h200 : (api rid).status = 200)
    (hfresh : now2 < now + 3600) :
    view_recipe api cache now cu db rid =
      { out := .page (api rid).json (alreadySavedEntry cu db rid),
        cache := cacheSet cache now (s!"recipe_{rid}") (api rid).json 3600,
        apiCalled := true }
    ∧ view_recipe api2
        (cacheSet cache now (s!"recipe_{rid}") (api rid).json 3600)
        now2 cu2 db2 rid =
      { out := .page (api rid).json (alreadySavedEntry cu2 db2 rid),
        cache := cacheSet cache now (s!"recipe_{rid}") (api rid).json 3600,
        apiCalled := false } := by
  constructor
  · simp only [view_recipe, hmiss, h200, beq_self_eq_true, if_true]
  · have hhit := cacheGet_cacheSet cache now now2 (s!"recipe_{rid}")
      (api rid).json 3600 hfresh
    simp only [view_recipe, hhit]

/-- Witness for `view_recipe_cache_spec`: a first view at time 0 on an
empty cache calls the API; a second view at time 5 does not. -/
theorem view_recipe_cache_spec_witness :
    (view_recipe iapiOk [] 0 none emptyDB 7).apiCalled = true
    ∧ (view_recipe iapiOk (cacheSet [] 0 "recipe_7" (iapiOk 7).json 3600) 5
        none emptyDB 7).apiCalled = false := by
  have T := view_recipe_cache_spec iapiOk iapiOk [] 0 5 none none
    emptyDB emptyDB 7 rfl rfl (by decide)
  exact ⟨congrArg ViewRecipeResult.apiCalled T.1,
         congrArg ViewRecipeResult.apiCalled T.2⟩

end FlavorLibrary
